import Mathlib

/-!
Shallow embedding of the mp3-decoder repository (src/src/audio/header.rs,
src/src/audio/frame.rs, src/src/audio/mod.rs, src/src/metadata/header.rs).

Bytes are modelled as `Nat` (values < 256 where the source has `u8`); the
32-bit big-endian header word is a `Nat` built exactly as
`u32::from_be_bytes`.  All arithmetic stays well below `2^32`, so no wrap
is modelled (the only place a `u32` sum could wrap, `data_size + 10` in the
metadata sub-frame decoder, would panic in a debug build and is outside
every claim's inputs).  Fallible Rust code returning `io::Result` is
modelled with an explicit result type `DR`; Rust panics (out-of-range
slice indexing, `Option::unwrap` on `None`) are modelled as a distinct
`panic` outcome tagged with the panic's source kind; the two `while` loops
are modelled with explicit fuel, `diverge` marking fuel exhaustion.
The derived `duration_per_frame: f64` field is a floating-point value no
claim mentions and is not modelled.  `println!` tracing has no semantic
effect and is dropped.
-/

namespace MP3

/-- The distinct decode-error sites of the source, one constructor per
`Err(...)` site (the source uses `io::Error` with a message string). -/
inductive DecodeError where
  | invalidSyncWord
  | invalidVersion
  | invalidLayer
  | invalidBitrateIndex
  | invalidSampleRateIndex
  | invalidChannelMode
  | invalidModeExtension
  | missingTagMarker
  | unsupportedTagVersion
  | truncatedFrameHeader
  deriving DecidableEq

/-- The panic sources reachable in the decoders: out-of-range slice
indexing, and `Option::unwrap` applied to `None`. -/
inductive PanicKind where
  | sliceOutOfBounds
  | unwrapNone
  deriving DecidableEq

/-- Result of running a piece of the Rust code: normal return, `Err`
return, panic, or (for the fuelled loops) fuel exhaustion. -/
inductive DR (α : Type) where
  | ok (val : α)
  | err (e : DecodeError)
  | panic (k : PanicKind)
  | diverge
  deriving DecidableEq

/-- Sequencing of fallible steps: models `?` and panic unwinding. -/
def DR.bind {α β : Type} : DR α → (α → DR β) → DR β
  | .ok a, f => f a
  | .err e, _ => .err e
  | .panic k, _ => .panic k
  | .diverge, _ => .diverge

inductive MPEGVersion where
  | Mpeg1
  | Mpeg2
  | Mpeg2_5
  deriving DecidableEq

inductive Layer where
  | Layer1
  | Layer2
  | Layer3
  deriving DecidableEq

inductive ChannelMode where
  | Stereo
  | JointStereo
  | SingleChannel
  | DualChannel
  deriving DecidableEq

inductive ModeExtension where
  | Mode1
  | Mode2
  | Mode3
  | Mode4
  deriving DecidableEq

/-- `MPEGVersion::from_bits` (header.rs:18): 00=MPEG-2.5, 10=MPEG-2,
11=MPEG-1, anything else is the reserved/invalid case. -/
def MPEGVersion.from_bits (bits : Nat) : DR MPEGVersion :=
  match bits with
  | 0b00 => .ok .Mpeg2_5
  | 0b10 => .ok .Mpeg2
  | 0b11 => .ok .Mpeg1
  | _ => .err .invalidVersion

/-- `Layer::from_bits` (header.rs:89). -/
def Layer.from_bits (bits : Nat) : DR Layer :=
  match bits with
  | 0b01 => .ok .Layer3
  | 0b10 => .ok .Layer2
  | 0b11 => .ok .Layer1
  | _ => .err .invalidLayer

/-- `Layer::get_samples_per_frame` (header.rs:101). -/
def Layer.get_samples_per_frame : Layer → Nat
  | .Layer1 => 384
  | _ => 1152

/-- `ChannelMode::from_bits` (header.rs:117). -/
def ChannelMode.from_bits (bits : Nat) : DR ChannelMode :=
  match bits with
  | 0b00 => .ok .Stereo
  | 0b01 => .ok .JointStereo
  | 0b10 => .ok .DualChannel
  | 0b11 => .ok .SingleChannel
  | _ => .err .invalidChannelMode

/-- `ModeExtension::from_bits` (header.rs:146). -/
def ModeExtension.from_bits (bits : Nat) : DR ModeExtension :=
  match bits with
  | 0b00 => .ok .Mode1
  | 0b01 => .ok .Mode2
  | 0b10 => .ok .Mode3
  | 0b11 => .ok .Mode4
  | _ => .err .invalidModeExtension

/-- `MPEGVersion::get_bitrate` (header.rs:32): table in kbps selected by
(version, layer); index 0 is the free bitrate (None), 15 invalid (None),
1..=14 index the table at `index - 1`, scaled by 1000 to bps.  The table
values are copied verbatim from the source, including the `36` entry of the
(MPEG-1, Layer 1) table. -/
def MPEGVersion.get_bitrate (v : MPEGVersion) (layer : Layer) (index : Nat) :
    DR (Option Nat) :=
  let table : List Nat :=
    match v, layer with
    | .Mpeg1, .Layer1 =>
        [32, 64, 36, 128, 160, 192, 224, 256, 288, 320, 352, 384, 416, 448]
    | .Mpeg1, .Layer2 =>
        [32, 48, 56, 64, 80, 96, 112, 128, 160, 192, 224, 256, 320, 384]
    | .Mpeg1, .Layer3 =>
        [32, 40, 48, 56, 64, 80, 96, 112, 128, 160, 192, 224, 256, 320]
    | _, .Layer1 =>
        [32, 48, 56, 64, 80, 96, 112, 128, 144, 160, 176, 192, 224, 256]
    | _, _ => [8, 16, 24, 32, 40, 48, 56, 64, 80, 96, 112, 128, 144, 160]
  if index = 0 then .ok none
  else if index ≤ 14 then .ok (some (table.getD (index - 1) 0 * 1000))
  else if index = 15 then .ok none
  else .err .invalidBitrateIndex

/-- `MPEGVersion::get_sampling_rate` (header.rs:65). -/
def MPEGVersion.get_sampling_rate (v : MPEGVersion) (index : Nat) : DR Nat :=
  let table : List Nat :=
    match v with
    | .Mpeg1 => [44100, 48000, 32000]
    | .Mpeg2 => [22050, 24000, 16000]
    | .Mpeg2_5 => [11025, 12000, 8000]
  if index ≤ 2 then .ok (table.getD index 0)
  else .err .invalidSampleRateIndex

/-- The aggregate of `MP3AudioFrameHeader` (header.rs:161), minus the
floating-point `duration_per_frame` field. -/
structure MP3AudioFrameHeader where
  mpeg_version : MPEGVersion
  layer : Layer
  has_crc : Bool
  bitrate : Nat
  sample_rate : Nat
  has_padding : Bool
  channel_mode : ChannelMode
  mode_extension : ModeExtension
  is_copywrighted : Bool
  is_original : Bool
  deriving DecidableEq

/-- `u32::from_be_bytes` on four byte values. -/
def beU32 (b0 b1 b2 b3 : Nat) : Nat :=
  ((b0 * 256 + b1) * 256 + b2) * 256 + b3

/-- The field extraction of `MP3AudioFrameHeader::from_bytes` after the
sync-word early return (header.rs:207-263), on the 32-bit word. -/
def parseAfterSync (data : Nat) : DR MP3AudioFrameHeader :=
  match MPEGVersion.from_bits ((data >>> 19) &&& 0b11) with
  | .err e => .err e
  | .panic k => .panic k
  | .diverge => .diverge
  | .ok mpeg_version =>
    match Layer.from_bits ((data >>> 17) &&& 0b11) with
    | .err e => .err e
    | .panic k => .panic k
    | .diverge => .diverge
    | .ok layer =>
      let has_crc : Bool := ((data >>> 16) &&& 0b1) == 0
      match mpeg_version.get_bitrate layer ((data >>> 12) &&& 0b1111) with
      | .err e => .err e
      | .panic k => .panic k
      | .diverge => .diverge
      | .ok bitrate_from_index =>
        match mpeg_version.get_sampling_rate ((data >>> 10) &&& 0b11) with
        | .err e => .err e
        | .panic k => .panic k
        | .diverge => .diverge
        | .ok sample_rate =>
          let has_padding : Bool := ((data >>> 9) &&& 0b1) == 1
          match ChannelMode.from_bits ((data >>> 6) &&& 0b11) with
          | .err e => .err e
          | .panic k => .panic k
          | .diverge => .diverge
          | .ok channel_mode =>
            match ModeExtension.from_bits ((data >>> 4) &&& 0b11) with
            | .err e => .err e
            | .panic k => .panic k
            | .diverge => .diverge
            | .ok mode_extension =>
              let is_copywrighted : Bool := ((data >>> 3) &&& 0b1) == 1
              let is_original : Bool := ((data >>> 2) &&& 0b1) == 1
              match bitrate_from_index with
              | none => .panic .unwrapNone
              | some bitrate =>
                .ok { mpeg_version, layer, has_crc, bitrate, sample_rate,
                      has_padding, channel_mode, mode_extension,
                      is_copywrighted, is_original }

/-- `MP3AudioFrameHeader::from_bytes` (header.rs:189): build the 32-bit
big-endian word, check the 11-bit sync marker, then extract the fields. -/
def MP3AudioFrameHeader.from_bytes (b0 b1 b2 b3 : Nat) :
    DR MP3AudioFrameHeader :=
  let data := beU32 b0 b1 b2 b3
  if (data >>> 21) &&& 0x7FF ≠ 0x7FF then .err .invalidSyncWord
  else parseAfterSync data

/-- `MP3AudioFrame` (frame.rs:5): header, borrowed payload view, total
frame length in bytes. -/
structure MP3AudioFrame where
  header : MP3AudioFrameHeader
  data : List Nat
  frame_length : Nat
  deriving DecidableEq

/-- `MP3AudioFrame::from_bytes` (frame.rs:13): `&bytes[..4]` index-panics
when fewer than 4 bytes are supplied; otherwise decode the header, compute
`frame_length = samples_per_frame * (bitrate / sample_rate) + padding`
(the quotient `bitrate / sample_rate` is the source's u32 integer
division), and take `&bytes[4..]` as the payload view. -/
def MP3AudioFrame.from_bytes (bytes : List Nat) : DR MP3AudioFrame :=
  match bytes with
  | b0 :: b1 :: b2 :: b3 :: _ =>
    DR.bind (MP3AudioFrameHeader.from_bytes b0 b1 b2 b3) fun header =>
      let padding := if header.has_padding then 1 else 0
      let samples_per_frame := header.layer.get_samples_per_frame
      let frame_length :=
        samples_per_frame * (header.bitrate / header.sample_rate) + padding
      .ok { header, data := bytes.drop 4, frame_length }
  | _ => .panic .sliceOutOfBounds

/-- The `while current_index < bytes.len()` loop of `parse_audio_frames`
(mod.rs:11-21), with explicit fuel: decode a frame at the current index,
advance by its `frame_length`, push it, and break out returning the frames
collected so far once the index exceeds 1000. -/
def parseAudioFramesAux (bytes : List Nat) :
    Nat → Nat → List MP3AudioFrame → DR (List MP3AudioFrame)
  | 0, _, _ => .diverge
  | fuel + 1, current_index, frames =>
    if current_index < bytes.length then
      match MP3AudioFrame.from_bytes (bytes.drop current_index) with
      | .ok frame =>
        let next_index := current_index + frame.frame_length
        let frames2 := frames ++ [frame]
        if next_index > 1000 then .ok frames2
        else parseAudioFramesAux bytes fuel next_index frames2
      | .err e => .err e
      | .panic k => .panic k
      | .diverge => .diverge
    else .ok frames

/-- `parse_audio_frames` (mod.rs:7), fuelled. -/
def parse_audio_frames (fuel : Nat) (bytes : List Nat) :
    DR (List MP3AudioFrame) :=
  parseAudioFramesAux bytes fuel 0 []

inductive ID3v2MetadataFrameID where
  | Title
  | Artist
  | Album
  | Year
  | Comment
  | TrackNumber
  | Genre
  | Txxx
  | Custom (bytes : List Nat)
  deriving DecidableEq

/-- `ID3v2MetadataFrameID::from_bytes` (metadata/header.rs:31): the known
4-byte ASCII identifiers, with a catch-all wrapping anything else as
`Custom`.  Every arm returns `Some`. -/
def ID3v2MetadataFrameID.from_bytes (bytes : List Nat) :
    Option ID3v2MetadataFrameID :=
  if bytes = [0x54, 0x49, 0x54, 0x32] then some .Title
  else if bytes = [0x54, 0x50, 0x45, 0x31] then some .Artist
  else if bytes = [0x54, 0x41, 0x4C, 0x42] then some .Album
  else if bytes = [0x54, 0x59, 0x45, 0x52] then some .Year
  else if bytes = [0x43, 0x4F, 0x4D, 0x4D] then some .Comment
  else if bytes = [0x54, 0x52, 0x43, 0x4B] then some .TrackNumber
  else if bytes = [0x54, 0x43, 0x4F, 0x4E] then some .Genre
  else if bytes = [0x54, 0x58, 0x58, 0x58] then some .Txxx
  else some (.Custom bytes)

/-- `ID3v2MetadataFrame` (metadata/header.rs:47). -/
structure ID3v2MetadataFrame where
  id : ID3v2MetadataFrameID
  data_size : Nat
  size : Nat
  flags : Nat
  data : List Nat
  deriving DecidableEq

/-- `ID3v2MetadataFrame::parse_size` (metadata/header.rs:84): only tag
version 3 is supported; the size is a plain big-endian u32. -/
def ID3v2MetadataFrame.parse_size (b0 b1 b2 b3 version : Nat) : DR Nat :=
  if version ≠ 3 then .err .unsupportedTagVersion
  else .ok (beU32 b0 b1 b2 b3)

/-- `ID3v2MetadataFrame::from_bytes` (metadata/header.rs:65): require 10
bytes, parse the data size, unwrap the (always-`Some`) identifier, and
slice `&bytes[10..size]`, which index-panics when `size` exceeds the
remaining bytes. -/
def ID3v2MetadataFrame.from_bytes (bytes : List Nat) (version : Nat) :
    DR ID3v2MetadataFrame :=
  if bytes.length < 10 then .err .truncatedFrameHeader
  else
    DR.bind (parse_size (bytes.getD 4 0) (bytes.getD 5 0) (bytes.getD 6 0)
        (bytes.getD 7 0) version) fun data_size =>
      let size := data_size + 10
      match ID3v2MetadataFrameID.from_bytes (bytes.take 4) with
      | none => .panic .unwrapNone
      | some id =>
        if size > bytes.length then .panic .sliceOutOfBounds
        else
          .ok { id, data_size, size,
                flags := bytes.getD 8 0 * 256 + bytes.getD 9 0,
                data := (bytes.drop 10).take (size - 10) }

/-- `ID3v2Header` (metadata/header.rs:98). -/
structure ID3v2Header where
  version : Nat
  flags : Nat
  metadata_size : Nat
  size : Nat
  metadata_frames : List ID3v2MetadataFrame
  deriving DecidableEq

/-- `ID3v2Header::has_flag` (metadata/header.rs:147): at least 10 bytes
and the 3-byte magic marker `ID3`. -/
def ID3v2Header.has_flag (bytes : List Nat) : Bool :=
  decide (10 ≤ bytes.length) && decide (bytes.take 3 = [0x49, 0x44, 0x33])

/-- `ID3v2Header::parse_size` (metadata/header.rs:156): bytes 6 to 9 ORed
together shifted by 21, 14, 7, 0 bits — with the full byte values, no
masking to 7 bits. -/
def ID3v2Header.parse_size (bytes : List Nat) : Nat :=
  (bytes.getD 6 0 <<< 21) ||| (bytes.getD 7 0 <<< 14) |||
    (bytes.getD 8 0 <<< 7) ||| bytes.getD 9 0

/-- The `while current_index < bytes.len()` loop of
`ID3v2Header::build_metadata_frames` (metadata/header.rs:163), fuelled. -/
def buildMetadataFramesAux (bytes : List Nat) (version : Nat) :
    Nat → Nat → List ID3v2MetadataFrame → DR (List ID3v2MetadataFrame)
  | 0, _, _ => .diverge
  | fuel + 1, current_index, frames =>
    if current_index < bytes.length then
      match ID3v2MetadataFrame.from_bytes (bytes.drop current_index) version with
      | .ok frame =>
        buildMetadataFramesAux bytes version fuel
          (current_index + frame.size) (frames ++ [frame])
      | .err e => .err e
      | .panic k => .panic k
      | .diverge => .diverge
    else .ok frames

/-- `ID3v2Header::build_metadata_frames`: each successful iteration
advances by `frame.size ≥ 10`, so `bytes.length + 1` fuel always
suffices. -/
def ID3v2Header.build_metadata_frames (bytes : List Nat) (version : Nat) :
    DR (List ID3v2MetadataFrame) :=
  buildMetadataFramesAux bytes version (bytes.length + 1) 0 []

/-- `ID3v2Header::from_bytes` (metadata/header.rs:122): check the magic
marker, decode the sizes and version, then slice `&bytes[10..size]` —
which index-panics when `size` exceeds the buffer length — and run the
sub-frame loop over it.  The extended-header flag is computed in the
source only to be printed, with no semantic effect. -/
def ID3v2Header.from_bytes (bytes : List Nat) : DR ID3v2Header :=
  if ¬ has_flag bytes then .err .missingTagMarker
  else
    let metadata_size := parse_size bytes
    let size := metadata_size + 10
    let version := bytes.getD 3 0
    let flags := bytes.getD 5 0
    if size > bytes.length then .panic .sliceOutOfBounds
    else
      DR.bind (build_metadata_frames ((bytes.drop 10).take (size - 10))
          version) fun frames =>
        .ok { version, flags, metadata_size, size, metadata_frames := frames }

/-! ### Helper lemmas -/

theorem mpegVersion_from_bits_ne_sync (bits : Nat) :
    MPEGVersion.from_bits bits ≠ .err .invalidSyncWord := by
  unfold MPEGVersion.from_bits
  split <;> simp

theorem layer_from_bits_ne_sync (bits : Nat) :
    Layer.from_bits bits ≠ .err .invalidSyncWord := by
  unfold Layer.from_bits
  split <;> simp

theorem channelMode_from_bits_ne_sync (bits : Nat) :
    ChannelMode.from_bits bits ≠ .err .invalidSyncWord := by
  unfold ChannelMode.from_bits
  split <;> simp

theorem modeExtension_from_bits_ne_sync (bits : Nat) :
    ModeExtension.from_bits bits ≠ .err .invalidSyncWord := by
  unfold ModeExtension.from_bits
  split <;> simp

theorem MPEGVersion.get_bitrate_ne_sync (v : MPEGVersion) (l : Layer)
    (i : Nat) : v.get_bitrate l i ≠ .err .invalidSyncWord := by
  intro h
  unfold MPEGVersion.get_bitrate at h
  repeat' split at h
  all_goals simp_all

theorem MPEGVersion.get_sampling_rate_ne_sync (v : MPEGVersion) (i : Nat) :
    v.get_sampling_rate i ≠ .err .invalidSyncWord := by
  intro h
  unfold MPEGVersion.get_sampling_rate at h
  repeat' split at h
  all_goals simp_all

/-- No step after the sync-word early return can produce the
`InvalidSyncWord` error. -/
theorem parseAfterSync_ne_sync (data : Nat) :
    parseAfterSync data ≠ .err .invalidSyncWord := by
  intro h
  unfold parseAfterSync at h
  repeat' split at h
  all_goals
    simp_all [mpegVersion_from_bits_ne_sync, layer_from_bits_ne_sync,
      channelMode_from_bits_ne_sync, modeExtension_from_bits_ne_sync,
      MPEGVersion.get_bitrate_ne_sync, MPEGVersion.get_sampling_rate_ne_sync]

theorem beU32_lt (b0 b1 b2 b3 : Nat) (h0 : b0 < 256) (h1 : b1 < 256)
    (h2 : b2 < 256) (h3 : b3 < 256) : beU32 b0 b1 b2 b3 < 2 ^ 32 := by
  unfold beU32
  omega

/-- A header whose fields give `frame_length = 0`: MPEG-2 Layer 3 at
8000 bps and 22050 Hz, since `1152 * (8000 / 22050) = 1152 * 0 = 0`. -/
def zeroLengthInput : List Nat := [0xFF, 0xF3, 0x10, 0x00]

def zeroLengthHeader : MP3AudioFrameHeader :=
  { mpeg_version := .Mpeg2, layer := .Layer3, has_crc := false,
    bitrate := 8000, sample_rate := 22050, has_padding := false,
    channel_mode := .Stereo, mode_extension := .Mode1,
    is_copywrighted := false, is_original := false }

def zeroLengthFrame : MP3AudioFrame :=
  { header := zeroLengthHeader, data := [], frame_length := 0 }

/-- On `zeroLengthInput` the walk loop never advances `current_index`
(it stays 0, so the `> 1000` cap never fires either): no amount of fuel
makes it return. -/
theorem zeroLength_walk_diverges (fuel : Nat) :
    ∀ acc, parseAudioFramesAux zeroLengthInput fuel 0 acc = .diverge := by
  induction fuel with
  | zero => intro _; rfl
  | succ n ih =>
    intro acc
    have hstep : parseAudioFramesAux zeroLengthInput (n + 1) 0 acc =
        parseAudioFramesAux zeroLengthInput n 0 (acc ++ [zeroLengthFrame]) :=
      rfl
    rw [hstep]
    exact ih _

theorem fromBytes_short_panics {bytes : List Nat} (h : bytes.length < 4) :
    MP3AudioFrame.from_bytes bytes = .panic .sliceOutOfBounds := by
  rcases bytes with _ | ⟨a, _ | ⟨b, _ | ⟨c, _ | ⟨d, t⟩⟩⟩⟩
  · rfl
  · rfl
  · rfl
  · rfl
  · exact absurd h (by simp)

theorem walkAux_short_panics (bytes : List Nat) (ci fuel : Nat)
    (acc : List MP3AudioFrame) (h1 : ci < bytes.length)
    (h2 : bytes.length - ci < 4) :
    parseAudioFramesAux bytes (fuel + 1) ci acc = .panic .sliceOutOfBounds := by
  have hd : (bytes.drop ci).length < 4 := by
    rw [List.length_drop]
    exact h2
  simp only [parseAudioFramesAux]
  rw [if_pos h1, fromBytes_short_panics hd]

/-! ### Claim theorems -/

/-- Claim C1: refuted on the code — a decodable header whose computed
`frame_length` is 0 makes `parse_audio_frames` loop forever.  The walk
does not fail with an error: the loop body never advances the index, the
1000-byte cap never triggers, and no fuel bound is ever enough. -/
theorem C1_zero_frame_length_walk_diverges :
    MP3AudioFrame.from_bytes zeroLengthInput = .ok zeroLengthFrame ∧
    zeroLengthFrame.frame_length = 0 ∧
    ∀ fuel, parse_audio_frames fuel zeroLengthInput = .diverge :=
  ⟨by decide, rfl, fun fuel => zeroLength_walk_diverges fuel []⟩

/-- Claim C2 (amended): the stored frame length is
`samples_per_frame * (bitrate / sample_rate) + padding`, where the inner
quotient is integer division — not
`floor(samples_per_frame * bitrate / sample_rate) + padding`. -/
theorem C2_frame_length_uses_inner_quotient (bytes : List Nat)
    (f : MP3AudioFrame) (h : MP3AudioFrame.from_bytes bytes = .ok f) :
    f.frame_length = f.header.layer.get_samples_per_frame *
      (f.header.bitrate / f.header.sample_rate) +
      (if f.header.has_padding then 1 else 0) := by
  rcases bytes with _ | ⟨b0, bs⟩
  · simp [MP3AudioFrame.from_bytes] at h
  rcases bs with _ | ⟨b1, bs⟩
  · simp [MP3AudioFrame.from_bytes] at h
  rcases bs with _ | ⟨b2, bs⟩
  · simp [MP3AudioFrame.from_bytes] at h
  rcases bs with _ | ⟨b3, bs⟩
  · simp [MP3AudioFrame.from_bytes] at h
  simp only [MP3AudioFrame.from_bytes] at h
  cases hh : MP3AudioFrameHeader.from_bytes b0 b1 b2 b3 <;>
    rw [hh] at h <;> simp only [DR.bind] at h
  case ok hd =>
    injection h with h2
    subst h2
    rfl
  all_goals exact absurd h (by simp)

/-- Counterexample to claim C2 as stated: for the frame at FF FB 90 44
(1152 samples, 128000 bps, 44100 Hz, no padding) the stored length is
`1152 * (128000 / 44100) = 2304`, while the claimed formula gives
`1152 * 128000 / 44100 = 3343`. -/
theorem C2_claimed_formula_counterexample :
    MP3AudioFrame.from_bytes [0xFF, 0xFB, 0x90, 0x44] =
      .ok { header := { mpeg_version := .Mpeg1, layer := .Layer3,
                        has_crc := false, bitrate := 128000,
                        sample_rate := 44100, has_padding := false,
                        channel_mode := .JointStereo,
                        mode_extension := .Mode1,
                        is_copywrighted := false, is_original := true },
            data := [], frame_length := 2304 } ∧
    (2304 : Nat) ≠ 1152 * 128000 / 44100 + 0 :=
  ⟨by decide, by decide⟩

/-- Witness for C2 at the concrete frame decoded from FF FB 90 44. -/
theorem C2_frame_length_witness :
    (MP3AudioFrame.mk
        { mpeg_version := .Mpeg1, layer := .Layer3, has_crc := false,
          bitrate := 128000, sample_rate := 44100, has_padding := false,
          channel_mode := .JointStereo, mode_extension := .Mode1,
          is_copywrighted := false, is_original := true }
        [] 2304).frame_length =
      (MP3AudioFrame.mk
        { mpeg_version := .Mpeg1, layer := .Layer3, has_crc := false,
          bitrate := 128000, sample_rate := 44100, has_padding := false,
          channel_mode := .JointStereo, mode_extension := .Mode1,
          is_copywrighted := false, is_original := true }
        [] 2304).header.layer.get_samples_per_frame *
        ((MP3AudioFrame.mk
        { mpeg_version := .Mpeg1, layer := .Layer3, has_crc := false,
          bitrate := 128000, sample_rate := 44100, has_padding := false,
          channel_mode := .JointStereo, mode_extension := .Mode1,
          is_copywrighted := false, is_original := true }
        [] 2304).header.bitrate /
          (MP3AudioFrame.mk
        { mpeg_version := .Mpeg1, layer := .Layer3, has_crc := false,
          bitrate := 128000, sample_rate := 44100, has_padding := false,
          channel_mode := .JointStereo, mode_extension := .Mode1,
          is_copywrighted := false, is_original := true }
        [] 2304).header.sample_rate) +
        (if (MP3AudioFrame.mk
        { mpeg_version := .Mpeg1, layer := .Layer3, has_crc := false,
          bitrate := 128000, sample_rate := 44100, has_padding := false,
          channel_mode := .JointStereo, mode_extension := .Mode1,
          is_copywrighted := false, is_original := true }
        [] 2304).header.has_padding then 1 else 0) :=
  C2_frame_length_uses_inner_quotient [0xFF, 0xFB, 0x90, 0x44] _ (by decide)

/-- Claim C3: refuted on the code — a header that passes every other
check but carries bitrate index 0b0000 (free) or 0b1111 (invalid) makes
frame construction panic at `bitrate_from_index.unwrap()` instead of
returning a decode error. -/
theorem C3_missing_bitrate_panics :
    MP3AudioFrame.from_bytes [0xFF, 0xFB, 0x04, 0x44] =
      .panic .unwrapNone ∧
    MP3AudioFrame.from_bytes [0xFF, 0xFB, 0xF4, 0x44] =
      .panic .unwrapNone :=
  ⟨by decide, by decide⟩

/-- Claim C5 (amended): the payload view of a decoded frame is all of the
input slice after the 4 header bytes — from offset+4 to the end of the
buffer — so its length is the remaining buffer length minus 4, not
`frame_length - 4`. -/
theorem C5_payload_is_buffer_remainder (bytes : List Nat)
    (f : MP3AudioFrame) (h : MP3AudioFrame.from_bytes bytes = .ok f) :
    f.data = bytes.drop 4 ∧ f.data.length = bytes.length - 4 := by
  rcases bytes with _ | ⟨b0, bs⟩
  · simp [MP3AudioFrame.from_bytes] at h
  rcases bs with _ | ⟨b1, bs⟩
  · simp [MP3AudioFrame.from_bytes] at h
  rcases bs with _ | ⟨b2, bs⟩
  · simp [MP3AudioFrame.from_bytes] at h
  rcases bs with _ | ⟨b3, bs⟩
  · simp [MP3AudioFrame.from_bytes] at h
  simp only [MP3AudioFrame.from_bytes] at h
  cases hh : MP3AudioFrameHeader.from_bytes b0 b1 b2 b3 <;>
    rw [hh] at h <;> simp only [DR.bind] at h
  case ok hd =>
    injection h with h2
    subst h2
    exact ⟨rfl, by simp⟩
  all_goals exact absurd h (by simp)

/-- Counterexample to claim C5 as stated: walking the 8-byte buffer
FF FA 90 64 00 00 00 00 yields one frame with `frame_length = 2304` but a
4-byte payload (the buffer remainder), not a `2304 - 4`-byte one. -/
theorem C5_payload_view_counterexample :
    parse_audio_frames 5 [0xFF, 0xFA, 0x90, 0x64, 0, 0, 0, 0] =
      .ok [{ header := { mpeg_version := .Mpeg1, layer := .Layer3,
                         has_crc := true, bitrate := 128000,
                         sample_rate := 44100, has_padding := false,
                         channel_mode := .JointStereo,
                         mode_extension := .Mode3,
                         is_copywrighted := false, is_original := true },
             data := [0, 0, 0, 0], frame_length := 2304 }] ∧
    ([0, 0, 0, 0] : List Nat).length ≠ 2304 - 4 :=
  ⟨by decide, by decide⟩

/-- Witness for C5 at a 6-byte input slice. -/
theorem C5_payload_witness :
    (MP3AudioFrame.mk
        { mpeg_version := .Mpeg1, layer := .Layer3, has_crc := false,
          bitrate := 128000, sample_rate := 44100, has_padding := false,
          channel_mode := .JointStereo, mode_extension := .Mode1,
          is_copywrighted := false, is_original := true }
        [7, 8] 2304).data =
      ([0xFF, 0xFB, 0x90, 0x44, 7, 8] : List Nat).drop 4 ∧
    (MP3AudioFrame.mk
        { mpeg_version := .Mpeg1, layer := .Layer3, has_crc := false,
          bitrate := 128000, sample_rate := 44100, has_padding := false,
          channel_mode := .JointStereo, mode_extension := .Mode1,
          is_copywrighted := false, is_original := true }
        [7, 8] 2304).data.length =
      ([0xFF, 0xFB, 0x90, 0x44, 7, 8] : List Nat).length - 4 :=
  C5_payload_is_buffer_remainder [0xFF, 0xFB, 0x90, 0x44, 7, 8] _ (by decide)

/-- Claim C9: an input slice shorter than 4 bytes makes
`MP3AudioFrame::from_bytes` index-panic on `bytes[..4]`, and therefore the
walk loop panics whenever its current index sits 1 to 3 bytes before the
end of the buffer. -/
theorem C9_short_input_panics :
    (∀ bytes : List Nat, bytes.length < 4 →
      MP3AudioFrame.from_bytes bytes = .panic .sliceOutOfBounds) ∧
    (∀ (bytes : List Nat) (ci fuel : Nat) (acc : List MP3AudioFrame),
      ci < bytes.length → bytes.length - ci < 4 →
      parseAudioFramesAux bytes (fuel + 1) ci acc =
        .panic .sliceOutOfBounds) :=
  ⟨fun _ h => fromBytes_short_panics h,
   fun bytes ci fuel acc h1 h2 => walkAux_short_panics bytes ci fuel acc h1 h2⟩

/-- Witness for C9: a 3-byte slice panics, and a walk sitting 2 bytes
before the end of the buffer panics. -/
theorem C9_short_input_panics_witness :
    MP3AudioFrame.from_bytes [0, 0, 0] = .panic .sliceOutOfBounds ∧
    parseAudioFramesAux [9, 9] 5 0 [] = .panic .sliceOutOfBounds :=
  ⟨C9_short_input_panics.1 [0, 0, 0] (by decide),
   C9_short_input_panics.2 [9, 9] 0 4 [] (by decide) (by decide)⟩

/-- Claim C6: the 4 bytes FF FB 90 44 decode to an MPEG-1, Layer 3 header
with no CRC, bitrate 128000 bps, sample rate 44100 Hz, no padding, joint
stereo, not copyrighted, original. -/
theorem C6_concrete_header_decode :
    MP3AudioFrameHeader.from_bytes 0xFF 0xFB 0x90 0x44 =
      .ok { mpeg_version := .Mpeg1, layer := .Layer3, has_crc := false,
            bitrate := 128000, sample_rate := 44100, has_padding := false,
            channel_mode := .JointStereo, mode_extension := .Mode1,
            is_copywrighted := false, is_original := true } := by
  decide

/-- Claim C8: header decoding fails with `InvalidSyncWord` exactly when
the first 11 bits of the 32-bit big-endian header word are not all ones;
when they are all ones the sync-word check can never be the failure. -/
theorem C8_sync_word_check (b0 b1 b2 b3 : Nat) (h0 : b0 < 256)
    (h1 : b1 < 256) (h2 : b2 < 256) (h3 : b3 < 256) :
    MP3AudioFrameHeader.from_bytes b0 b1 b2 b3 = .err .invalidSyncWord ↔
      beU32 b0 b1 b2 b3 >>> 21 ≠ 0x7FF := by
  have hlt : beU32 b0 b1 b2 b3 >>> 21 < 2 ^ 11 := by
    rw [Nat.shiftRight_eq_div_pow]
    have hd := beU32_lt b0 b1 b2 b3 h0 h1 h2 h3
    omega
  have hmask : beU32 b0 b1 b2 b3 >>> 21 &&& 0x7FF =
      beU32 b0 b1 b2 b3 >>> 21 := by
    have he : (0x7FF : Nat) = 2 ^ 11 - 1 := by norm_num
    rw [he, Nat.and_pow_two_sub_one_eq_mod, Nat.mod_eq_of_lt hlt]
  constructor
  · intro h
    simp only [MP3AudioFrameHeader.from_bytes, hmask] at h
    intro hcon
    rw [if_neg (by simp [hcon])] at h
    exact parseAfterSync_ne_sync _ h
  · intro hne
    simp only [MP3AudioFrameHeader.from_bytes, hmask]
    rw [if_pos hne]

/-- Witness for C8 at the all-zero input, whose sync bits are not all
ones. -/
theorem C8_sync_word_check_witness :
    MP3AudioFrameHeader.from_bytes 0 0 0 0 = .err .invalidSyncWord :=
  (C8_sync_word_check 0 0 0 0 (by decide) (by decide) (by decide)
    (by decide)).mpr (by decide)

theorem DR.bind_ok {α β : Type} {x : DR α} {f : α → DR β} {b : β}
    (h : DR.bind x f = .ok b) : ∃ a, x = .ok a ∧ f a = .ok b := by
  cases x <;> simp_all [DR.bind]

theorem frameID_from_bytes_isSome (bytes : List Nat) :
    (ID3v2MetadataFrameID.from_bytes bytes).isSome = true := by
  unfold ID3v2MetadataFrameID.from_bytes
  repeat' split
  all_goals rfl

theorem metadataFrame_no_unwrap_panic (bytes : List Nat) (version : Nat) :
    ID3v2MetadataFrame.from_bytes bytes version ≠ .panic .unwrapNone := by
  intro h
  simp only [ID3v2MetadataFrame.from_bytes, ID3v2MetadataFrame.parse_size]
    at h
  split at h
  · exact absurd h (by simp)
  · by_cases hv : version = 3
    · rw [if_neg (by simp [hv])] at h
      simp only [DR.bind] at h
      cases hid : ID3v2MetadataFrameID.from_bytes (bytes.take 4) with
      | none =>
        have hs := frameID_from_bytes_isSome (bytes.take 4)
        rw [hid] at hs
        exact absurd hs (by simp)
      | some id =>
        rw [hid] at h
        split at h
        · simp_all
        · split at h <;> exact absurd h (by simp)
    · rw [if_pos hv] at h
      simp only [DR.bind] at h
      exact absurd h (by simp)

/-- Modelled from the spec's words (§4.3 step 3), for comparison with the
source's `ID3v2Header::parse_size`: the synchsafe size decoded with each
byte contributing only its low 7 bits. -/
def specSynchsafeSize (b6 b7 b8 b9 : Nat) : Nat :=
  ((b6 % 128) <<< 21) ||| ((b7 % 128) <<< 14) ||| ((b8 % 128) <<< 7) |||
    (b9 % 128)

/-- A 138-byte tag accepted by the decoder whose fourth size byte has its
top bit set: declared metadata size 128 (full-byte decoding), holding one
118-byte custom sub-frame. -/
def c7buf : List Nat :=
  [0x49, 0x44, 0x33, 3, 0, 0, 0, 0, 0, 0x80] ++
    [0x41, 0x41, 0x41, 0x41, 0, 0, 0, 118, 0, 0] ++ List.replicate 118 0

/-- Claim C4: refuted on the code — a tag whose declared total size
exceeds the buffer length, and a sub-frame whose declared total size
exceeds the remaining bytes, both index-panic on `bytes[10..size]` rather
than returning a decode error.  The first input declares metadata size 100
(total 110) in a 10-byte buffer; the second declares data size 50 (total
60) in a 10-byte slice. -/
theorem C4_declared_size_overrun_panics :
    ID3v2Header.from_bytes [0x49, 0x44, 0x33, 3, 0, 0, 0, 0, 0, 100] =
      .panic .sliceOutOfBounds ∧
    ID3v2MetadataFrame.from_bytes
        [0x54, 0x49, 0x54, 0x32, 0, 0, 0, 50, 0, 0] 3 =
      .panic .sliceOutOfBounds :=
  ⟨by decide, by decide⟩

/-- Claim C7 (amended): for every buffer the tag header decoder accepts,
the decoded metadata size is the OR of bytes 6 to 9 shifted by 21, 14, 7
and 0 bits with their full 8-bit values (no masking to 7 bits), and the
total size is the metadata size plus 10. -/
theorem C7_size_decoding (bytes : List Nat) (hdr : ID3v2Header)
    (h : ID3v2Header.from_bytes bytes = .ok hdr) :
    hdr.metadata_size = (bytes.getD 6 0 <<< 21) ||| (bytes.getD 7 0 <<< 14) |||
      (bytes.getD 8 0 <<< 7) ||| bytes.getD 9 0 ∧
    hdr.size = hdr.metadata_size + 10 := by
  simp only [ID3v2Header.from_bytes] at h
  split at h
  · exact absurd h (by simp)
  · split at h
    · exact absurd h (by simp)
    · obtain ⟨frames, hx, hf⟩ := DR.bind_ok h
      injection hf with h2
      subst h2
      exact ⟨rfl, rfl⟩

/-- Witness for C7 at the minimal accepted empty tag. -/
theorem C7_size_decoding_witness :
    (ID3v2Header.mk 3 0 0 10 []).metadata_size =
      (([0x49, 0x44, 0x33, 3, 0, 0, 0, 0, 0, 0] : List Nat).getD 6 0 <<< 21) |||
        (([0x49, 0x44, 0x33, 3, 0, 0, 0, 0, 0, 0] : List Nat).getD 7 0 <<< 14) |||
        (([0x49, 0x44, 0x33, 3, 0, 0, 0, 0, 0, 0] : List Nat).getD 8 0 <<< 7) |||
        ([0x49, 0x44, 0x33, 3, 0, 0, 0, 0, 0, 0] : List Nat).getD 9 0 ∧
    (ID3v2Header.mk 3 0 0 10 []).size =
      (ID3v2Header.mk 3 0 0 10 []).metadata_size + 10 :=
  C7_size_decoding [0x49, 0x44, 0x33, 3, 0, 0, 0, 0, 0, 0]
    (ID3v2Header.mk 3 0 0 10 []) (by decide)

set_option maxRecDepth 100000 in
/-- Counterexample to claim C7 as stated: `c7buf` is accepted and decodes
to metadata size 128, but the claimed low-7-bit synchsafe formula over its
size bytes 0, 0, 0, 0x80 gives 0. -/
theorem C7_low7_masking_counterexample :
    ID3v2Header.from_bytes c7buf =
      .ok { version := 3, flags := 0, metadata_size := 128, size := 138,
            metadata_frames := [{ id := .Custom [0x41, 0x41, 0x41, 0x41],
                                  data_size := 118, size := 128,
                                  flags := 0,
                                  data := List.replicate 118 0 }] } ∧
    specSynchsafeSize (c7buf.getD 6 0) (c7buf.getD 7 0) (c7buf.getD 8 0)
      (c7buf.getD 9 0) = 0 ∧
    (128 : Nat) ≠ 0 :=
  ⟨by decide, by decide, by decide⟩

/-- Claim C10: the metadata frame identifier decoder returns `Some` on
every input (unknown identifiers become `Custom`), so the `unwrap` on its
result inside the sub-frame decoder can never be the source of a panic. -/
theorem C10_frame_id_total :
    (∀ bytes : List Nat,
      (ID3v2MetadataFrameID.from_bytes bytes).isSome = true) ∧
    (∀ (bytes : List Nat) (version : Nat),
      ID3v2MetadataFrame.from_bytes bytes version ≠ .panic .unwrapNone) :=
  ⟨frameID_from_bytes_isSome, metadataFrame_no_unwrap_panic⟩

/-- Witness for C10 at an unrecognized 4-byte identifier and at an empty
sub-frame slice. -/
theorem C10_frame_id_total_witness :
    (ID3v2MetadataFrameID.from_bytes [0, 1, 2, 3]).isSome = true ∧
    ID3v2MetadataFrame.from_bytes [] 3 ≠ .panic .unwrapNone :=
  ⟨C10_frame_id_total.1 [0, 1, 2, 3], C10_frame_id_total.2 [] 3⟩

end MP3
